import Mathlib

/-!
# RelatioConstruct backend — verification of the classification pipeline

Shallow embedding of `backend/server.py`. Strings are modelled as `List Char`
(Python `str` is a sequence of code points); Python string primitives
(`lower`, `strip`, `startswith`, `in`, slicing) are translated below.
The external pieces — the Gemini client and `json.loads` — are modelled as
explicit parameters: the gateway outcome is a sum (client missing / call
raised / raw text returned) and the JSON parser is a function argument,
since any JSON object is reachable as the parse of a suitable raw text.
-/

namespace RelatioConstruct

/-- Python `str.lower` on one character. The repository's keyword tables and
the concrete inputs exercised here only use ASCII upper-case letters
(accented characters in them are already lower-case, which both Python's
`lower` and `Char.toLower` leave unchanged). -/
def lowerChar (c : Char) : Char := c.toLower

/-- Python `str.lower`. -/
def lower (l : List Char) : List Char := l.map lowerChar

/-- Whitespace characters stripped by Python `str.strip()` (ASCII range). -/
def isPySpace (c : Char) : Bool :=
  c = ' ' || c = '\t' || c = '\n' || c = '\r' || c = '\x0b' || c = '\x0c'

/-- Python `str.strip()`: drop leading and trailing whitespace. -/
def pyStrip (l : List Char) : List Char :=
  ((l.dropWhile isPySpace).reverse.dropWhile isPySpace).reverse

/-- Python `str.startswith`. -/
def isPrefixL : List Char → List Char → Bool
  | [], _ => true
  | _ :: _, [] => false
  | a :: as, b :: bs => a = b && isPrefixL as bs

/-- Python `str.endswith`. -/
def isSuffixL (needle l : List Char) : Bool :=
  isPrefixL needle.reverse l.reverse

/-- Python substring containment `needle in hay`. -/
def isSubstring (needle : List Char) : List Char → Bool
  | [] => isPrefixL needle []
  | c :: rest => isPrefixL needle (c :: rest) || isSubstring needle rest

/-- `sum(1 for word in kws if word in texto)` from the fallback classifier:
the number of keywords of the list that occur in the text. -/
def countKeywords (kws : List (List Char)) (texto : List Char) : Nat :=
  (kws.filter (fun w => isSubstring w texto)).length

/-- Python `max(iterable, key=...)` over `(key, value)` pairs: keeps the
first element whose value is maximal (replaces only on strictly greater),
matching CPython's left-to-right scan. -/
def pyMaxGo (best : List Char × Nat) : List (List Char × Nat) → List Char × Nat
  | [] => best
  | x :: rest => pyMaxGo (if x.2 > best.2 then x else best) rest

/-- `max(pilar_counts, key=pilar_counts.get)`: first key of maximal count,
in the dict's insertion order. -/
def pyMax (x : List Char × Nat) (xs : List (List Char × Nat)) : List Char :=
  (pyMaxGo x xs).1

/-- Association-list lookup, modelling Python `dict[key]`; `none` models a
`KeyError` being raised. -/
def dictGet (k : List Char) : List (List Char × List Char) → Option (List Char)
  | [] => none
  | (k2, v) :: rest => if k = k2 then some v else dictGet k rest

/-! ## Keyword tables of `get_fallback_response` (server.py lines 155–181) -/

def comunicacion_keywords : List (List Char) :=
  ["hablar".toList, "conversar".toList, "dije".toList, "escuchar".toList,
   "expresar".toList, "comunicar".toList, "comentar".toList, "decir".toList]

def confianza_keywords : List (List Char) :=
  ["confiar".toList, "mentir".toList, "secreto".toList, "honesto".toList,
   "celular".toList, "revisar".toList, "celos".toList, "amiga".toList, "amigo".toList]

def respeto_keywords : List (List Char) :=
  ["respetar".toList, "valorar".toList, "apreciar".toList, "insultar".toList,
   "gritar".toList, "espacio".toList, "entendió".toList, "entender".toList]

def intimidad_keywords : List (List Char) :=
  ["abrazo".toList, "beso".toList, "íntimo".toList, "cercano".toList,
   "romántico".toList, "cariño".toList, "sexo".toList, "fotos".toList]

def compromiso_keywords : List (List Char) :=
  ["futuro".toList, "planear".toList, "juntos".toList, "familia".toList,
   "proyecto".toList, "relación".toList, "compromiso".toList, "serio".toList]

def palabras_negativas : List (List Char) :=
  ["pelea".toList, "discutir".toList, "enojado".toList, "mal".toList,
   "problema".toList, "mentir".toList, "insultar".toList, "celos".toList]

def palabras_positivas : List (List Char) :=
  ["bien".toList, "amor".toList, "feliz".toList, "entendió".toList,
   "acuerdo".toList, "alegre".toList, "apoyó".toList, "juntos".toList,
   "compartir".toList]

/-- The five pillar names, the keys of `pilar_counts` in insertion order. -/
def pilares : List (List Char) :=
  ["Comunicación".toList, "Confianza".toList, "Respeto".toList,
   "Intimidad".toList, "Compromiso".toList]

/-- The closed set of visual-action codes, as enumerated in `SHORT_PROMPT`
(positive codes then negative codes). -/
def acciones_validas : List (List Char) :=
  ["construir_cimiento".toList, "construir_pared".toList, "construir_techo".toList,
   "pintar_pared".toList, "añadir_ventana".toList, "plantar_flor".toList,
   "añadir_luz".toList, "expandir_casa".toList,
   "dañar_cimiento".toList, "añadir_grieta_pared".toList, "romper_ventana".toList,
   "despintar_pared".toList, "crear_maleza".toList, "apagar_luz".toList,
   "retroceder_nivel".toList]

/-! ## The fallback classifier `get_fallback_response` -/

/-- `pilar = max(pilar_counts, key=pilar_counts.get)` where `pilar_counts`
is the dict of lines 169–175, built over the lower-cased text. -/
def fallback_pilar (texto_lower : List Char) : List Char :=
  pyMax ("Comunicación".toList, countKeywords comunicacion_keywords texto_lower)
    [("Confianza".toList, countKeywords confianza_keywords texto_lower),
     ("Respeto".toList, countKeywords respeto_keywords texto_lower),
     ("Intimidad".toList, countKeywords intimidad_keywords texto_lower),
     ("Compromiso".toList, countKeywords compromiso_keywords texto_lower)]

/-- `es_constructivo = positivos_count >= negativos_count` (line 186). -/
def fallback_constructivo (texto_lower : List Char) : Bool :=
  countKeywords palabras_positivas texto_lower ≥ countKeywords palabras_negativas texto_lower

/-- The `acciones` dict of lines 189–195, as a function of `es_constructivo`. -/
def acciones (ec : Bool) : List (List Char × List Char) :=
  [("Comunicación".toList, if ec then "construir_pared".toList else "añadir_grieta_pared".toList),
   ("Confianza".toList, if ec then "construir_cimiento".toList else "dañar_cimiento".toList),
   ("Respeto".toList, if ec then "añadir_ventana".toList else "romper_ventana".toList),
   ("Intimidad".toList, if ec then "añadir_luz".toList else "apagar_luz".toList),
   ("Compromiso".toList, if ec then "construir_techo".toList else "retroceder_nivel".toList)]

/-- The `insights` dict (lines 201–216): the constructive table, replaced by
the non-constructive one when `es_constructivo` is false. -/
def insights (ec : Bool) : List (List Char × List Char) :=
  if ec then
    [("Comunicación".toList, "Las palabras que han intercambiado construyen paredes fuertes que dan estructura a su hogar.".toList),
     ("Confianza".toList, "La confianza es el cimiento sobre el que se edifican las relaciones duraderas.".toList),
     ("Respeto".toList, "El respeto mutuo abre ventanas para que circule aire fresco en la relación.".toList),
     ("Intimidad".toList, "Han encendido una luz cálida que ilumina los rincones más personales de su relación.".toList),
     ("Compromiso".toList, "Están construyendo un techo sólido que protegerá su relación en días de tormenta.".toList)]
  else
    [("Comunicación".toList, "Han aparecido grietas en las paredes de su comunicación que necesitan reparación.".toList),
     ("Confianza".toList, "Los cimientos de confianza se han debilitado y requieren refuerzo inmediato.".toList),
     ("Respeto".toList, "Se han roto ventanas importantes en su estructura de respeto mutuo.".toList),
     ("Intimidad".toList, "La luz que iluminaba su conexión íntima se ha atenuado considerablemente.".toList),
     ("Compromiso".toList, "El techo de su compromiso tiene goteras que deben ser reparadas.".toList)]

/-- The `consejos` dict (lines 218–224). -/
def consejos : List (List Char × List Char) :=
  [("Comunicación".toList, "Hablar abiertamente sobre necesidades y expectativas fortalece su conexión. Practica la escucha activa, verificando que entiendes lo que tu pareja quiere transmitir. Recuerda que comunicar no es solo hablar, sino asegurarse de ser comprendido.".toList),
   ("Confianza".toList, "La confianza se construye con consistencia en palabras y acciones. Sé transparente sobre tus sentimientos y preocupaciones. Si hay dudas, abórdalas directamente en vez de dejar que crezcan.".toList),
   ("Respeto".toList, "El respeto significa valorar las diferencias y respetar límites personales. Aprende a discutir sin atacar el carácter de tu pareja. Las palabras hirientes dejan cicatrices duraderas.".toList),
   ("Intimidad".toList, "La intimidad va más allá de lo físico; incluye vulnerabilidad emocional compartida. Dediquen tiempo a conexiones cotidianas significativas. A veces una mirada sincera vale más que grandes gestos.".toList),
   ("Compromiso".toList, "El compromiso es una decisión diaria de priorizar la relación. Construyan rituales compartidos que fortalezcan su vínculo. Las pequeñas promesas cumplidas refuerzan la confianza en el futuro conjunto.".toList)]

/-- `magnitud = 'positiva_media' if es_constructivo else 'negativa_media'`. -/
def fallback_magnitud (ec : Bool) : List Char :=
  if ec then "positiva_media".toList else "negativa_media".toList

/-- The parsed model response: the JSON dict produced by `json.loads` (or by
the fallback). Every key may be absent (`create_entry` reads them with
`.get` and defaults); `es_constructivo` may arrive as a boolean or as a
string, which line 133–134 coerces. -/
structure ArchitectResponse where
  pilar_detectado : Option (List Char)
  magnitud_impacto : Option (List Char)
  es_constructivo : Option (Sum Bool (List Char))
  insight_arquitecto : Option (List Char)
  consejo_profesional : Option (List Char)
  accion_visual_sugerida : Option (List Char)
deriving DecidableEq

/-- `get_fallback_response` (lines 147–236): keyword counting, pillar by
Python `max`, sentiment comparison, and three dict lookups. A `none` result
models a `KeyError` escaping the function (the totality theorems below show
this never happens). -/
def get_fallback_response (texto_entrada : List Char) : Option ArchitectResponse :=
  match dictGet (fallback_pilar (lower texto_entrada))
          (acciones (fallback_constructivo (lower texto_entrada))),
        dictGet (fallback_pilar (lower texto_entrada))
          (insights (fallback_constructivo (lower texto_entrada))),
        dictGet (fallback_pilar (lower texto_entrada)) consejos with
  | some accion, some insight, some consejo =>
      some { pilar_detectado := some (fallback_pilar (lower texto_entrada))
             magnitud_impacto := some (fallback_magnitud (fallback_constructivo (lower texto_entrada)))
             es_constructivo := some (Sum.inl (fallback_constructivo (lower texto_entrada)))
             insight_arquitecto := some insight
             consejo_profesional := some consejo
             accion_visual_sugerida := some accion }
  | _, _, _ => none

/-! Projections used to state pipeline results without record literals. -/

def pilar_of (o : Option ArchitectResponse) : Option (List Char) :=
  o.bind (fun r => r.pilar_detectado)

def accion_of (o : Option ArchitectResponse) : Option (List Char) :=
  o.bind (fun r => r.accion_visual_sugerida)

def constructivo_of (o : Option ArchitectResponse) : Option (Sum Bool (List Char)) :=
  o.bind (fun r => r.es_constructivo)

/-! ## Response normalization and the gateway (`call_gemini_api`, lines 85–145) -/

/-- Lines 118–121: strip a leading ` ```json ` or ` ``` ` marker.
Python `text[7:]` / `text[3:]` is `List.drop`. -/
def strip_leading_fence (s : List Char) : List Char :=
  if isPrefixL "```json".toList s then s.drop 7
  else if isPrefixL "```".toList s then s.drop 3
  else s

/-- Lines 122–123: strip a trailing ` ``` ` marker. Python `text[:-3]` is
`List.take (length - 3)`. -/
def strip_trailing_fence (s : List Char) : List Char :=
  if isSuffixL "```".toList s then s.take (s.length - 3) else s

/-- The markdown-fence cleanup of lines 117–124: trim, strip a leading
fence marker, strip a trailing fence marker, trim again. -/
def clean_text (l : List Char) : List Char :=
  pyStrip (strip_trailing_fence (strip_leading_fence (pyStrip l)))

/-- Lines 133–134: if `es_constructivo` is present and is a string, replace
it by the boolean `value.lower() == "true"`. -/
def coerce_es_constructivo (r : ArchitectResponse) : ArchitectResponse :=
  match r.es_constructivo with
  | some (Sum.inr s) =>
      { r with es_constructivo := some (Sum.inl (lower s = "true".toList)) }
  | _ => r

/-- Outcome of the Gemini call: the client object is missing
(`genai_client` is `None`), the API call raised, or raw response text came
back. -/
inductive GatewayOutcome
  | unavailable
  | failure
  | success (raw : List Char)
deriving DecidableEq

/-- `call_gemini_api` (lines 85–145). `jsonLoads` is the model of Python's
`json.loads` restricted to the response shape: `none` models a raised
`json.JSONDecodeError` (or a parse to a non-dict), which the broad
`except` of line 138 turns into the fallback; `some r` is a successfully
parsed dict. On a parsed dict the function only coerces
`es_constructivo` and returns it — there is no validation of
`pilar_detectado` or `accion_visual_sugerida` against their enumerations. -/
def call_gemini_api (jsonLoads : List Char → Option ArchitectResponse)
    (gw : GatewayOutcome) (texto_entrada : List Char) : Option ArchitectResponse :=
  match gw with
  | .unavailable => get_fallback_response texto_entrada
  | .failure => get_fallback_response texto_entrada
  | .success raw =>
      match jsonLoads (clean_text raw) with
      | none => get_fallback_response texto_entrada
      | some r => some (coerce_es_constructivo r)

/-! ## Entry store (`load_entries` / `save_entry`, lines 62–83) -/

/-- A persisted record (lines 290–299). -/
structure Entry where
  timestamp : List Char
  texto_entrada : List Char
  pilar_detectado : List Char
  magnitud_impacto : List Char
  es_constructivo : Sum Bool (List Char)
  insight_arquitecto : List Char
  consejo_profesional : List Char
  accion_visual_sugerida : List Char
deriving DecidableEq

/-- State of `data/entries.json`: missing, present but not valid JSON, or a
valid JSON list of entries. -/
inductive FileState
  | absent
  | invalidJson
  | valid (entries : List Entry)
deriving DecidableEq

/-- `load_entries` (lines 69–76): `ensure_data_directory` initialises a
missing file to `[]`, and the `except (FileNotFoundError, json.JSONDecodeError)`
handler returns `[]`, so an absent or unparseable file reads as the empty
list. -/
def load_entries : FileState → List Entry
  | .absent => []
  | .invalidJson => []
  | .valid entries => entries

/-- `save_entry` (lines 78–83): read the whole list, append, write back. -/
def save_entry (fs : FileState) (entry : Entry) : FileState :=
  .valid (load_entries fs ++ [entry])

/-! ## Request handlers -/

/-- The request body of `POST /api/entry` as `create_entry` inspects it:
no JSON body (`data` falsy), a JSON object without the `texto_entrada`
key, or one with a string value for it. -/
inductive BodyData
  | noJson
  | missingField
  | withText (t : List Char)
deriving DecidableEq

/-- The handler's response value. -/
inductive HttpResponse
  | ok (entry : Entry)
  | badRequest
  | serverError
deriving DecidableEq

/-- The HTTP status code paired with each response (lines 270, 277, 305, 314). -/
def status : HttpResponse → Nat
  | .ok _ => 200
  | .badRequest => 400
  | .serverError => 500

/-- Lines 290–299: the persisted record, reading each response key with
`.get` and its documented default. -/
def entry_from (now texto : List Char) (r : ArchitectResponse) : Entry :=
  { timestamp := now
    texto_entrada := texto
    pilar_detectado := r.pilar_detectado.getD "Desconocido".toList
    magnitud_impacto := r.magnitud_impacto.getD "neutral".toList
    es_constructivo := r.es_constructivo.getD (Sum.inl true)
    insight_arquitecto := r.insight_arquitecto.getD "Registro procesado.".toList
    consejo_profesional := r.consejo_profesional.getD "Reflexiona sobre esta experiencia.".toList
    accion_visual_sugerida := r.accion_visual_sugerida.getD "construir_pared".toList }

/-- `create_entry` (lines 257–314). `now` is the `datetime.now().isoformat()`
timestamp. A missing body or missing key, or text that strips to empty, is
a 400 with no write; otherwise the pipeline result is wrapped into an
`Entry` and appended. A `none` from the pipeline models an uncaught
exception reaching the outer `except` (500, nothing written). -/
def create_entry (jsonLoads : List Char → Option ArchitectResponse)
    (gw : GatewayOutcome) (now : List Char) (body : BodyData)
    (fs : FileState) : HttpResponse × FileState :=
  match body with
  | .noJson => (.badRequest, fs)
  | .missingField => (.badRequest, fs)
  | .withText t =>
      let texto_entrada := pyStrip t
      if texto_entrada = [] then (.badRequest, fs)
      else
        match call_gemini_api jsonLoads gw texto_entrada with
        | none => (.serverError, fs)
        | some r =>
            let entry := entry_from now texto_entrada r
            (.ok entry, save_entry fs entry)

/-- `get_entries` (lines 316–327): returns the loaded list with status 200.
The 500 branch is unreachable because `load_entries` is total. -/
def get_entries (fs : FileState) : List Entry × Nat :=
  (load_entries fs, 200)

/-- `dict[key]` where the key is known to be present, as in
`acciones[pilar]`, `insights[pilar]`, `consejos[pilar]`. -/
def dGetD (k : List Char) (d : List (List Char × List Char)) : List Char :=
  (dictGet k d).getD []

/-! ## Shared lemmas -/

/-- Python's `max` scan returns either the seed or one of the scanned
elements. -/
theorem pyMaxGo_mem (best : List Char × Nat) (xs : List (List Char × Nat)) :
    pyMaxGo best xs ∈ best :: xs := by
  induction xs generalizing best with
  | nil => simp [pyMaxGo]
  | cons x rest ih =>
    have h := ih (if x.2 > best.2 then x else best)
    rw [pyMaxGo]
    rcases List.mem_cons.mp h with h1 | h1
    · rw [h1]
      split
      · exact List.mem_cons_of_mem _ (List.mem_cons_self _ _)
      · exact List.mem_cons_self _ _
    · exact List.mem_cons_of_mem _ (List.mem_cons_of_mem _ h1)

/-- The pillar chosen by the fallback classifier is always one of the five
dict keys. -/
theorem fallback_pilar_mem (tl : List Char) : fallback_pilar tl ∈ pilares := by
  have h := pyMaxGo_mem
    ("Comunicación".toList, countKeywords comunicacion_keywords tl)
    [("Confianza".toList, countKeywords confianza_keywords tl),
     ("Respeto".toList, countKeywords respeto_keywords tl),
     ("Intimidad".toList, countKeywords intimidad_keywords tl),
     ("Compromiso".toList, countKeywords compromiso_keywords tl)]
  rw [fallback_pilar, pyMax]
  simp only [List.mem_cons, List.not_mem_nil, or_false] at h
  rcases h with h1 | h1 | h1 | h1 | h1 <;> (rw [h1]; simp [pilares])

/-- Master evaluation lemma: the fallback classifier never raises — all
three dict lookups succeed — and each field of its result is the value the
source computes. -/
theorem get_fallback_response_eq (t : List Char) :
    get_fallback_response t = some
      { pilar_detectado := some (fallback_pilar (lower t))
        magnitud_impacto := some (fallback_magnitud (fallback_constructivo (lower t)))
        es_constructivo := some (Sum.inl (fallback_constructivo (lower t)))
        insight_arquitecto :=
          some (dGetD (fallback_pilar (lower t)) (insights (fallback_constructivo (lower t))))
        consejo_profesional := some (dGetD (fallback_pilar (lower t)) consejos)
        accion_visual_sugerida :=
          some (dGetD (fallback_pilar (lower t)) (acciones (fallback_constructivo (lower t)))) } := by
  have hmem := fallback_pilar_mem (lower t)
  simp only [pilares, List.mem_cons, List.not_mem_nil, or_false] at hmem
  unfold get_fallback_response
  rcases hmem with h | h | h | h | h <;>
    (rw [h]; cases hec : fallback_constructivo (lower t) <;> rfl)

/-! ## String lemmas for the fence-stripping stage -/

/-- A payload wrapped in a ` ```json ` fenced block, the way the model
wraps its JSON. -/
def fence_json (p : List Char) : List Char :=
  "```json\n".toList ++ p ++ "\n```".toList

/-- A payload wrapped in a plain ` ``` ` fenced block. -/
def fence_plain (p : List Char) : List Char :=
  "```\n".toList ++ p ++ "\n```".toList

/-- A list that `dropWhile` leaves untouched and that is non-empty has a
head the predicate rejects. -/
theorem head_not_space (a : Char) (as : List Char)
    (h : (a :: as).dropWhile isPySpace = a :: as) : isPySpace a = false := by
  cases hsp : isPySpace a with
  | false => rfl
  | true =>
    rw [List.dropWhile_cons, if_pos hsp] at h
    have hle := (List.dropWhile_sublist (p := isPySpace) (l := as)).length_le
    rw [h] at hle
    simp at hle

/-- `pyStrip` fixes a list that starts and ends with a non-whitespace
character. -/
theorem pyStrip_eq_self_of_ends (c d : Char) (hc : isPySpace c = false)
    (hd : isPySpace d = false) (m : List Char) :
    pyStrip (c :: (m ++ [d])) = c :: (m ++ [d]) := by
  rw [pyStrip]
  rw [List.dropWhile_cons, if_neg (by simp [hc])]
  have hrev : (c :: (m ++ [d])).reverse = d :: (m.reverse ++ [c]) := by simp
  rw [hrev, List.dropWhile_cons, if_neg (by simp [hd]), ← hrev, List.reverse_reverse]

/-- `pyStrip` of a payload wrapped in single newlines gives back the
payload, when the payload has no leading or trailing whitespace. -/
theorem pyStrip_newline_wrap (p : List Char)
    (h1 : p.dropWhile isPySpace = p)
    (h2 : p.reverse.dropWhile isPySpace = p.reverse) :
    pyStrip ('\n' :: (p ++ ['\n'])) = p := by
  cases p with
  | nil => rfl
  | cons a as =>
    have hsp : isPySpace a = false := head_not_space a as h1
    rw [pyStrip]
    rw [List.dropWhile_cons, if_pos (by decide), List.cons_append,
        List.dropWhile_cons, if_neg (by rw [hsp]; simp)]
    have hrev : (a :: (as ++ ['\n'])).reverse = '\n' :: (a :: as).reverse := by simp
    rw [hrev, List.dropWhile_cons, if_pos (by decide), h2, List.reverse_reverse]

/-- A prefix of a prefix is a prefix: `isPrefixL (a ++ b) l` entails
`isPrefixL a l`. -/
theorem isPrefixL_of_append (a : List Char) (b l : List Char)
    (h : isPrefixL (a ++ b) l = true) : isPrefixL a l = true := by
  induction a generalizing l with
  | nil => rfl
  | cons c cs ih =>
    cases l with
    | nil => simp [isPrefixL] at h
    | cons d ds =>
      rw [List.cons_append, isPrefixL, Bool.and_eq_true] at h
      rw [isPrefixL, Bool.and_eq_true]
      exact ⟨h.1, ih ds h.2⟩

/-- `pyStrip` fixes a list with no leading and no trailing whitespace. -/
theorem pyStrip_eq_self (l : List Char) (h1 : l.dropWhile isPySpace = l)
    (h2 : l.reverse.dropWhile isPySpace = l.reverse) : pyStrip l = l := by
  rw [pyStrip, h1, h2, List.reverse_reverse]

/-- An unfenced payload with no surrounding whitespace passes through
`clean_text` unchanged. -/
theorem clean_text_id (p : List Char)
    (h1 : p.dropWhile isPySpace = p)
    (h2 : p.reverse.dropWhile isPySpace = p.reverse)
    (h3 : isPrefixL "```".toList p = false)
    (h4 : isSuffixL "```".toList p = false) :
    clean_text p = p := by
  have h3j : isPrefixL "```json".toList p = false := by
    cases hj : isPrefixL "```json".toList p with
    | false => rfl
    | true =>
      have hpre := isPrefixL_of_append "```".toList "json".toList p hj
      rw [h3] at hpre
      exact absurd hpre (by simp)
  rw [clean_text, pyStrip_eq_self p h1 h2, strip_leading_fence, if_neg (by rw [h3j]; simp),
      if_neg (by rw [h3]; simp), strip_trailing_fence, if_neg (by rw [h4]; simp),
      pyStrip_eq_self p h1 h2]

/-- Stripping the fences of a ` ```json `-fenced payload recovers the
payload. -/
theorem clean_text_fence_json (p : List Char)
    (h1 : p.dropWhile isPySpace = p)
    (h2 : p.reverse.dropWhile isPySpace = p.reverse) :
    clean_text (fence_json p) = p := by
  have hshape : fence_json p =
      '`' :: (("``json\n".toList ++ p ++ "\n``".toList) ++ ['`']) := by
    simp [fence_json]
  have hstrip : pyStrip (fence_json p) = fence_json p := by
    rw [hshape]
    exact pyStrip_eq_self_of_ends '`' '`' (by decide) (by decide) _
  have hpre : isPrefixL "```json".toList (fence_json p) = true := rfl
  have hdrop : (fence_json p).drop 7 = '\n' :: (p ++ "\n```".toList) := rfl
  have hsplit : '\n' :: (p ++ "\n```".toList) = ('\n' :: (p ++ ['\n'])) ++ "```".toList := by
    simp
  have hsuf : isSuffixL "```".toList ('\n' :: (p ++ "\n```".toList)) = true := by
    rw [isSuffixL]
    have hrev : ('\n' :: (p ++ "\n```".toList)).reverse =
        '`' :: '`' :: '`' :: '\n' :: (p.reverse ++ ['\n']) := by simp
    rw [hrev]; rfl
  have hlen : ('\n' :: (p ++ "\n```".toList)).length - 3 = ('\n' :: (p ++ ['\n'])).length := by
    simp
  have htake : ('\n' :: (p ++ "\n```".toList)).take (('\n' :: (p ++ "\n```".toList)).length - 3)
      = '\n' :: (p ++ ['\n']) := by
    rw [hlen]
    conv in ('\n' :: (p ++ "\n```".toList)) => rw [hsplit]
    exact List.take_left _ _
  rw [clean_text, hstrip, strip_leading_fence, if_pos hpre, hdrop,
      strip_trailing_fence, if_pos hsuf, htake]
  exact pyStrip_newline_wrap p h1 h2

/-- Stripping the fences of a plain ` ``` `-fenced payload recovers the
payload. -/
theorem clean_text_fence_plain (p : List Char)
    (h1 : p.dropWhile isPySpace = p)
    (h2 : p.reverse.dropWhile isPySpace = p.reverse) :
    clean_text (fence_plain p) = p := by
  have hshape : fence_plain p =
      '`' :: (("``\n".toList ++ p ++ "\n``".toList) ++ ['`']) := by
    simp [fence_plain]
  have hstrip : pyStrip (fence_plain p) = fence_plain p := by
    rw [hshape]
    exact pyStrip_eq_self_of_ends '`' '`' (by decide) (by decide) _
  have hprej : isPrefixL "```json".toList (fence_plain p) = false := rfl
  have hpre : isPrefixL "```".toList (fence_plain p) = true := rfl
  have hdrop : (fence_plain p).drop 3 = '\n' :: (p ++ "\n```".toList) := rfl
  have hsplit : '\n' :: (p ++ "\n```".toList) = ('\n' :: (p ++ ['\n'])) ++ "```".toList := by
    simp
  have hsuf : isSuffixL "```".toList ('\n' :: (p ++ "\n```".toList)) = true := by
    rw [isSuffixL]
    have hrev : ('\n' :: (p ++ "\n```".toList)).reverse =
        '`' :: '`' :: '`' :: '\n' :: (p.reverse ++ ['\n']) := by simp
    rw [hrev]; rfl
  have hlen : ('\n' :: (p ++ "\n```".toList)).length - 3 = ('\n' :: (p ++ ['\n'])).length := by
    simp
  have htake : ('\n' :: (p ++ "\n```".toList)).take (('\n' :: (p ++ "\n```".toList)).length - 3)
      = '\n' :: (p ++ ['\n']) := by
    rw [hlen]
    conv in ('\n' :: (p ++ "\n```".toList)) => rw [hsplit]
    exact List.take_left _ _
  rw [clean_text, hstrip, strip_leading_fence, if_neg (by rw [hprej]; simp), if_pos hpre, hdrop,
      strip_trailing_fence, if_pos hsuf, htake]
  exact pyStrip_newline_wrap p h1 h2

/-! ## Concrete `json.loads` models used in witnesses and counterexamples -/

/-- A `json.loads` that raises on every input, as it does on text that is
not JSON at all. -/
def jsonLoadsFail : List Char → Option ArchitectResponse := fun _ => none

/-- A parsed response whose pillar and visual action lie outside their
closed enumerations — reachable as the parse of a raw model text carrying
exactly these field values. -/
def banana_response : ArchitectResponse :=
  { pilar_detectado := some "Banana".toList
    magnitud_impacto := some "neutral".toList
    es_constructivo := some (Sum.inl true)
    insight_arquitecto := some "Una fruta tropical.".toList
    consejo_profesional := some "Coman fruta.".toList
    accion_visual_sugerida := some "volar_casa".toList }

/-- A `json.loads` whose parse is `banana_response`. -/
def jsonLoadsBanana : List Char → Option ArchitectResponse := fun _ => some banana_response

/-! ## Claims -/

/-- C1, counterexample: on input "Revisé su celular sin permiso." with the
gateway unavailable, the fallback classifier does fire and does return
pillar Confianza, but it computes `es_constructivo = true` (zero positive
and zero negative keywords tie, and a tie is constructive) and therefore
action `construir_cimiento` — not `false` / `dañar_cimiento` as the claim
states. -/
theorem c1_counterexample :
    (pilar_of (call_gemini_api jsonLoadsFail GatewayOutcome.unavailable
        "Revisé su celular sin permiso.".toList),
     constructivo_of (call_gemini_api jsonLoadsFail GatewayOutcome.unavailable
        "Revisé su celular sin permiso.".toList),
     accion_of (call_gemini_api jsonLoadsFail GatewayOutcome.unavailable
        "Revisé su celular sin permiso.".toList))
      = (some "Confianza".toList, some (Sum.inl true), some "construir_cimiento".toList)
    ∧ (some (Sum.inl true) : Option (Sum Bool (List Char))) ≠ some (Sum.inl false)
    ∧ some "construir_cimiento".toList ≠ some "dañar_cimiento".toList :=
  ⟨rfl, by decide, by decide⟩

/-- C1, amended: on input "Revisé su celular sin permiso." with the gateway
unavailable, the fallback fires and returns pillar = Confianza,
`es_constructivo = true`, and visual action `construir_cimiento`. -/
theorem c1_amended_scenario :
    call_gemini_api jsonLoadsFail GatewayOutcome.unavailable
        "Revisé su celular sin permiso.".toList
      = get_fallback_response "Revisé su celular sin permiso.".toList
    ∧ pilar_of (get_fallback_response "Revisé su celular sin permiso.".toList)
        = some "Confianza".toList
    ∧ constructivo_of (get_fallback_response "Revisé su celular sin permiso.".toList)
        = some (Sum.inl true)
    ∧ accion_of (get_fallback_response "Revisé su celular sin permiso.".toList)
        = some "construir_cimiento".toList :=
  ⟨rfl, rfl, rfl, rfl⟩

/-- C2, counterexample: a parsed model response whose pillar ("Banana") and
visual action ("volar_casa") lie outside the closed enumerations is
returned by the pipeline unchanged — no rejection, no fallback. -/
theorem c2_counterexample :
    call_gemini_api jsonLoadsBanana (GatewayOutcome.success "raw model text".toList)
        "hola".toList
      = some banana_response
    ∧ pilar_of (some banana_response) = some "Banana".toList
    ∧ "Banana".toList ∉ pilares
    ∧ accion_of (some banana_response) = some "volar_casa".toList
    ∧ "volar_casa".toList ∉ acciones_validas
    ∧ some banana_response ≠ get_fallback_response "hola".toList :=
  ⟨rfl, rfl, by decide, rfl, by decide, by decide⟩

/-- C2, amended: the response path performs no enumeration validation —
every successfully parsed response is returned as-is apart from the
`es_constructivo` string-to-boolean coercion; fallback triggers only on a
parse failure. -/
theorem c2_amended_no_validation (jsonLoads : List Char → Option ArchitectResponse)
    (raw t : List Char) (r : ArchitectResponse)
    (hparse : jsonLoads (clean_text raw) = some r) :
    call_gemini_api jsonLoads (GatewayOutcome.success raw) t
      = some (coerce_es_constructivo r) := by
  simp [call_gemini_api, hparse]

/-- C2, witness for the amended theorem. -/
theorem c2_amended_no_validation_witness :
    jsonLoadsBanana (clean_text "raw".toList) = some banana_response
    ∧ call_gemini_api jsonLoadsBanana (GatewayOutcome.success "raw".toList) "hola".toList
        = some (coerce_es_constructivo banana_response) :=
  ⟨rfl, c2_amended_no_validation jsonLoadsBanana "raw".toList "hola".toList banana_response rfl⟩

/-- C3: on every non-empty input text the fallback classifier succeeds (no
lookup can raise) with a pillar drawn from the five-element set and a
visual action drawn from the closed action set. -/
theorem c3_fallback_total (t : List Char) (h : t ≠ []) :
    (get_fallback_response t).isSome = true
    ∧ pilar_of (get_fallback_response t) ∈ pilares.map some
    ∧ accion_of (get_fallback_response t) ∈ acciones_validas.map some := by
  refine ⟨by rw [get_fallback_response_eq]; rfl, ?_, ?_⟩
  · rw [get_fallback_response_eq]
    exact List.mem_map_of_mem some (fallback_pilar_mem (lower t))
  · have hmem := fallback_pilar_mem (lower t)
    simp only [pilares, List.mem_cons, List.not_mem_nil, or_false] at hmem
    rw [get_fallback_response_eq]
    rcases hmem with h1 | h1 | h1 | h1 | h1 <;>
      (rw [h1]; cases hec : fallback_constructivo (lower t) <;> decide)

/-- C3, witness. -/
theorem c3_fallback_total_witness :
    ("hola".toList ≠ ([] : List Char))
    ∧ ((get_fallback_response "hola".toList).isSome = true
       ∧ pilar_of (get_fallback_response "hola".toList) ∈ pilares.map some
       ∧ accion_of (get_fallback_response "hola".toList) ∈ acciones_validas.map some) :=
  ⟨by decide, c3_fallback_total "hola".toList (by decide)⟩

/-- C4, counterexample: on input "zzz" every pillar keyword count is zero,
and the classifier returns the first-checked pillar Comunicación, not the
last-checked pillar Compromiso: Python `max` over the dict keeps the first
key of maximal count. -/
theorem c4_counterexample :
    countKeywords comunicacion_keywords (lower "zzz".toList) = 0
    ∧ countKeywords confianza_keywords (lower "zzz".toList) = 0
    ∧ countKeywords respeto_keywords (lower "zzz".toList) = 0
    ∧ countKeywords intimidad_keywords (lower "zzz".toList) = 0
    ∧ countKeywords compromiso_keywords (lower "zzz".toList) = 0
    ∧ pilar_of (get_fallback_response "zzz".toList) = some "Comunicación".toList
    ∧ "Comunicación".toList ≠ "Compromiso".toList :=
  ⟨rfl, rfl, rfl, rfl, rfl, rfl, by decide⟩

/-- C4, amended: whenever all five pillar keyword counts are zero, the
classifier returns the first-checked pillar, Comunicación. -/
theorem c4_amended_default_pilar (t : List Char)
    (h1 : countKeywords comunicacion_keywords (lower t) = 0)
    (h2 : countKeywords confianza_keywords (lower t) = 0)
    (h3 : countKeywords respeto_keywords (lower t) = 0)
    (h4 : countKeywords intimidad_keywords (lower t) = 0)
    (h5 : countKeywords compromiso_keywords (lower t) = 0) :
    pilar_of (get_fallback_response t) = some "Comunicación".toList := by
  rw [get_fallback_response_eq]
  show some (fallback_pilar (lower t)) = _
  unfold fallback_pilar
  rw [h1, h2, h3, h4, h5]
  rfl

/-- C4, witness for the amended theorem. -/
theorem c4_amended_default_pilar_witness :
    (countKeywords comunicacion_keywords (lower "qqq".toList) = 0
     ∧ countKeywords confianza_keywords (lower "qqq".toList) = 0
     ∧ countKeywords respeto_keywords (lower "qqq".toList) = 0
     ∧ countKeywords intimidad_keywords (lower "qqq".toList) = 0
     ∧ countKeywords compromiso_keywords (lower "qqq".toList) = 0)
    ∧ pilar_of (get_fallback_response "qqq".toList) = some "Comunicación".toList :=
  ⟨⟨rfl, rfl, rfl, rfl, rfl⟩,
   c4_amended_default_pilar "qqq".toList rfl rfl rfl rfl rfl⟩

/-- C5: the fallback classifier marks the event constructive exactly when
the count of positive keywords found in the lower-cased text is at least
the count of negative keywords (ties, including all-zero, are
constructive). -/
theorem c5_constructivo_iff (t : List Char) :
    constructivo_of (get_fallback_response t) = some (Sum.inl true)
      ↔ countKeywords palabras_positivas (lower t)
          ≥ countKeywords palabras_negativas (lower t) := by
  rw [get_fallback_response_eq]
  show some (Sum.inl (fallback_constructivo (lower t))) = some (Sum.inl true) ↔ _
  simp only [Option.some.injEq, Sum.inl.injEq]
  unfold fallback_constructivo
  exact decide_eq_true_iff

/-- C6: when the raw model text fails to parse, the pipeline substitutes the
keyword classifier's result, still produces a classification, and the
request succeeds with status 200 — the failure is never surfaced. -/
theorem c6_parse_failure_falls_back (jsonLoads : List Char → Option ArchitectResponse)
    (raw t now : List Char) (fs : FileState)
    (hparse : jsonLoads (clean_text raw) = none) (htext : pyStrip t ≠ []) :
    call_gemini_api jsonLoads (GatewayOutcome.success raw) (pyStrip t)
      = get_fallback_response (pyStrip t)
    ∧ (call_gemini_api jsonLoads (GatewayOutcome.success raw) (pyStrip t)).isSome = true
    ∧ status (create_entry jsonLoads (GatewayOutcome.success raw) now
        (BodyData.withText t) fs).1 = 200 := by
  have hcall : call_gemini_api jsonLoads (GatewayOutcome.success raw) (pyStrip t)
      = get_fallback_response (pyStrip t) := by
    simp [call_gemini_api, hparse]
  refine ⟨hcall, by rw [hcall, get_fallback_response_eq]; rfl, ?_⟩
  simp only [create_entry]
  rw [if_neg htext, hcall, get_fallback_response_eq]
  rfl

/-- C6, witness: "not json at all" as raw model text. -/
theorem c6_parse_failure_falls_back_witness :
    jsonLoadsFail (clean_text "not json at all".toList) = none
    ∧ pyStrip "hola".toList ≠ []
    ∧ (call_gemini_api jsonLoadsFail (GatewayOutcome.success "not json at all".toList)
          (pyStrip "hola".toList)
        = get_fallback_response (pyStrip "hola".toList)
       ∧ (call_gemini_api jsonLoadsFail (GatewayOutcome.success "not json at all".toList)
          (pyStrip "hola".toList)).isSome = true
       ∧ status (create_entry jsonLoadsFail (GatewayOutcome.success "not json at all".toList)
          "2025-06-01T00:00:00".toList (BodyData.withText "hola".toList) FileState.absent).1
          = 200) :=
  ⟨rfl, by decide,
   c6_parse_failure_falls_back jsonLoadsFail "not json at all".toList "hola".toList
     "2025-06-01T00:00:00".toList FileState.absent rfl (by decide)⟩

/-- C7: for a payload with no surrounding whitespace and no fence markers of
its own, wrapping it in a markdown code fence (` ```json ` or plain
` ``` `) changes nothing: the normalizer strips the fencing and hands the
parser the same text, so parsing gives the same result. -/
theorem c7_fencing_transparent (p : List Char)
    (h1 : p.dropWhile isPySpace = p)
    (h2 : p.reverse.dropWhile isPySpace = p.reverse)
    (h3 : isPrefixL "```".toList p = false)
    (h4 : isSuffixL "```".toList p = false)
    (jsonLoads : List Char → Option ArchitectResponse) :
    jsonLoads (clean_text (fence_json p)) = jsonLoads (clean_text p)
    ∧ jsonLoads (clean_text (fence_plain p)) = jsonLoads (clean_text p) := by
  rw [clean_text_fence_json p h1 h2, clean_text_fence_plain p h1 h2,
      clean_text_id p h1 h2 h3 h4]
  exact ⟨rfl, rfl⟩

/-- C7, witness. -/
theorem c7_fencing_transparent_witness :
    ("payload".toList.dropWhile isPySpace = "payload".toList
     ∧ "payload".toList.reverse.dropWhile isPySpace = "payload".toList.reverse
     ∧ isPrefixL "```".toList "payload".toList = false
     ∧ isSuffixL "```".toList "payload".toList = false)
    ∧ (jsonLoadsBanana (clean_text (fence_json "payload".toList))
         = jsonLoadsBanana (clean_text "payload".toList)
       ∧ jsonLoadsBanana (clean_text (fence_plain "payload".toList))
         = jsonLoadsBanana (clean_text "payload".toList)) :=
  ⟨⟨rfl, rfl, rfl, rfl⟩,
   c7_fencing_transparent "payload".toList rfl rfl rfl rfl jsonLoadsBanana⟩

/-- C8: appending an entry to the store and reading all entries back yields
the old sequence with the new entry, field-for-field, at the last
position. -/
theorem c8_store_roundtrip (fs : FileState) (entry : Entry) :
    load_entries (save_entry fs entry) = load_entries fs ++ [entry]
    ∧ (load_entries (save_entry fs entry)).getLast? = some entry
    ∧ (load_entries (save_entry fs entry)).dropLast = load_entries fs := by
  refine ⟨rfl, ?_, ?_⟩
  · show (load_entries fs ++ [entry]).getLast? = some entry
    exact List.getLast?_concat _
  · show (load_entries fs ++ [entry]).dropLast = load_entries fs
    exact List.dropLast_concat

/-- C9: a request with no JSON body, a missing `texto_entrada` key, or text
that strips to empty gets a 400 response and leaves the store untouched. -/
theorem c9_invalid_input_rejected (jsonLoads : List Char → Option ArchitectResponse)
    (gw : GatewayOutcome) (now : List Char) (fs : FileState) (t : List Char)
    (h : pyStrip t = []) :
    create_entry jsonLoads gw now BodyData.noJson fs = (HttpResponse.badRequest, fs)
    ∧ create_entry jsonLoads gw now BodyData.missingField fs = (HttpResponse.badRequest, fs)
    ∧ create_entry jsonLoads gw now (BodyData.withText t) fs = (HttpResponse.badRequest, fs)
    ∧ status HttpResponse.badRequest = 400 := by
  refine ⟨rfl, rfl, ?_, rfl⟩
  simp [create_entry, h]

/-- C9, witness: whitespace-only input text. -/
theorem c9_invalid_input_rejected_witness :
    pyStrip "   ".toList = []
    ∧ (create_entry jsonLoadsFail GatewayOutcome.unavailable "2025-06-01T00:00:00".toList
         BodyData.noJson FileState.absent = (HttpResponse.badRequest, FileState.absent)
       ∧ create_entry jsonLoadsFail GatewayOutcome.unavailable "2025-06-01T00:00:00".toList
         BodyData.missingField FileState.absent = (HttpResponse.badRequest, FileState.absent)
       ∧ create_entry jsonLoadsFail GatewayOutcome.unavailable "2025-06-01T00:00:00".toList
         (BodyData.withText "   ".toList) FileState.absent
         = (HttpResponse.badRequest, FileState.absent)
       ∧ status HttpResponse.badRequest = 400) :=
  ⟨rfl, c9_invalid_input_rejected jsonLoadsFail GatewayOutcome.unavailable
     "2025-06-01T00:00:00".toList FileState.absent "   ".toList rfl⟩

/-- C10: reading the store is total — an absent data file and a file whose
content is not valid JSON both read as the empty sequence, and
`GET /api/entries` answers 200 with that list. -/
theorem c10_load_entries_total :
    load_entries FileState.absent = []
    ∧ load_entries FileState.invalidJson = []
    ∧ get_entries FileState.absent = ([], 200)
    ∧ get_entries FileState.invalidJson = ([], 200) :=
  ⟨rfl, rfl, rfl, rfl⟩

end RelatioConstruct
